import Mathlib

/-!
Verification development for the go-docker-proxy repository.

The Go sources are shallowly embedded: pure string manipulation from the
`strings` package is reimplemented over `List Char` / `String`; HTTP
requests, responses and headers become plain records; the filesystem of
the blob store becomes a map from paths to byte lists; the upstream
transport (`http.Transport.RoundTrip`) becomes a function parameter; wall
clock time and durations are natural numbers of seconds (milliseconds
where the source sleeps in milliseconds).  Mutexed in-memory state
(inflight table, caches) is embedded as explicit state passing, and
concurrency of request handlers as an explicit interleaving of atomic
steps driven by a schedule.
-/

namespace GoDockerProxy

/-! ### Go `strings` helpers (single-character separators suffice for this code) -/

/-- `strings.HasPrefix(s, pat)` over character lists. -/
def listHasPre : List Char → List Char → Bool
  | _, [] => true
  | [], _ :: _ => false
  | c :: cs, p :: ps => c = p && listHasPre cs ps

/-- `strings.Contains(s, pat)` over character lists. -/
def listContains : List Char → List Char → Bool
  | [], pat => listHasPre [] pat
  | c :: cs, pat => listHasPre (c :: cs) pat || listContains cs pat

/-- `strings.Contains` on `String`. -/
def strContains (s pat : String) : Bool :=
  listContains s.toList pat.toList

/-- `strings.Split(s, sep)` for a one-character separator. -/
def goSplitC (sep : Char) : List Char → List (List Char)
  | [] => [[]]
  | c :: cs =>
    if c = sep then [] :: goSplitC sep cs
    else
      match goSplitC sep cs with
      | [] => [[c]]
      | s :: ss => (c :: s) :: ss

/-- `strings.Join(parts, sep)` for a one-character separator. -/
def goJoinC (sep : Char) : List (List Char) → List Char
  | [] => []
  | [x] => x
  | x :: y :: rest => x ++ sep :: goJoinC sep (y :: rest)

/-- `strings.TrimPrefix(s, pat)` on `String`. -/
def goTrimPreS (s pat : String) : String :=
  if listHasPre s.toList pat.toList then s.drop pat.length else s

/-! ### HTTP model -/

/-- An `http.Header` as an association list (keys assumed already in the
canonical MIME form used by the Go source literals).  `Get` returns the
first value, or `""` when the key is absent, as in `net/http`. -/
abbrev Header := List (String × String)

/-- `Header.Get`. -/
def headerGet (h : Header) (k : String) : String :=
  match h with
  | [] => ""
  | (k2, v) :: rest => if k2 = k then v else headerGet rest k

/-- `Header.Set`: drop existing values for the key and install the new one. -/
def headerSet (h : Header) (k v : String) : Header :=
  (h.filter fun kv => kv.1 ≠ k) ++ [(k, v)]

/-- An upstream `*http.Response` as seen after `RoundTrip`:
`body = none` models a nil body. Body bytes are naturals. -/
structure Resp where
  status : Nat
  headers : Header
  body : Option (List Nat)
deriving DecidableEq

/-- What the proxy writes back to its client (`http.ResponseWriter`). -/
structure ClientResp where
  status : Nat
  headers : Header
  body : List Nat
deriving DecidableEq

/-- An outbound request the proxy builds (`*http.Request`). -/
structure Req where
  method : String
  url : String
  headers : Header
deriving DecidableEq

/-- The inbound client request, as the fields `handleV2Request` consumes:
`r.Host`, `r.URL.Path` and `r.URL.RawQuery`. -/
structure InReq where
  host : String
  path : String
  query : String
deriving DecidableEq

/-- A deferred `cache.Set` call as issued by the response path
(`go p.cache.Set(cacheKey, bodyBytes, headersToCache, resp.StatusCode, 1*time.Hour)`). -/
structure CacheWrite where
  key : String
  data : List Nat
  headers : Header
  statusCode : Nat
  ttlSeconds : Nat
deriving DecidableEq

/-- Bytes of a string, used for error bodies (the JSON envelope of
`writeErrorResponse` is represented by its message text). -/
def strBytes (s : String) : List Nat :=
  s.toList.map Char.toNat

/-- `ProxyServer.writeErrorResponse` (main.go): JSON error with the given status. -/
def writeErrorResponse (msg : String) (statusCode : Nat) : ClientResp :=
  { status := statusCode
  , headers := [("Content-Type", "application/json")]
  , body := strBytes msg }

/-- `ProxyServer.responseUnauthorized` (main.go): 401 challenge pointing the
realm back at the proxy. -/
def responseUnauthorized (scheme hostname : String) : ClientResp :=
  { status := 401
  , headers :=
      [ ("WWW-Authenticate",
         "Bearer realm=\"" ++ scheme ++ "://" ++ hostname ++ "/v2/auth\",service=\"go-docker-proxy\"")
      , ("Content-Type", "application/json") ]
  , body := strBytes "UNAUTHORIZED" }

/-! ### Response copying (main.go `copyResponseRoundTrip`,
`copyResponseWithCacheRoundTrip`, `serveCachedResponse`) -/

/-- The skip set of `copyResponseRoundTrip` (its map sends
`Content-Length` to `false`, i.e. keeps it). -/
def respSkipHeadersRT (k : String) : Bool :=
  k = "Connection" || k = "Proxy-Connection" || k = "Upgrade" || k = "Transfer-Encoding"

/-- The skip set of `copyResponseWithCacheRoundTrip`. -/
def respSkipHeadersCache (k : String) : Bool :=
  k = "Connection" || k = "Proxy-Connection" || k = "Upgrade" || k = "Transfer-Encoding"

/-- `ProxyServer.copyResponseRoundTrip`: copy status, headers minus the skip
set, and the whole body (the buffered read loop drains the body). -/
def copyResponseRoundTrip (resp : Resp) : ClientResp :=
  { status := resp.status
  , headers := resp.headers.filter fun kv => !respSkipHeadersRT kv.1
  , body := resp.body.getD [] }

/-- `ProxyServer.copyResponseWithCacheRoundTrip`: copy the response and,
when storing is on, the status is 200 and the fully-read body is nonempty,
mark `X-Cache: MISS` and schedule an asynchronous `cache.Set` with the
captured headers (plus a rebuilt `Content-Length`) and a 1-hour ttl
argument.  The `io.ReadAll` error branch is not modelled (reads succeed). -/
def copyResponseWithCacheRoundTrip (resp : Resp) (cacheKey : String) (shouldStore : Bool) :
    ClientResp × Option CacheWrite :=
  let headersToCache := resp.headers.filter fun kv => !respSkipHeadersCache kv.1
  match resp.body with
  | none => ({ status := resp.status, headers := headersToCache, body := [] }, none)
  | some bodyBytes =>
    if shouldStore = false ∨ resp.status ≠ 200 then
      ({ status := resp.status, headers := headersToCache, body := bodyBytes }, none)
    else if bodyBytes = [] then
      ({ status := resp.status, headers := headersToCache, body := [] }, none)
    else
      ({ status := resp.status
        , headers := headerSet headersToCache "X-Cache" "MISS"
        , body := bodyBytes },
       some { key := cacheKey
            , data := bodyBytes
            , headers := headerSet headersToCache "Content-Length" (toString bodyBytes.length)
            , statusCode := resp.status
            , ttlSeconds := 3600 })

/-! ### DockerRegistryCache (cache.go) -/

/-- A `CacheItem` (cache.go): times are seconds. -/
structure CacheItem where
  data : List Nat
  headers : Header
  statusCode : Nat
  expiresAt : Nat
  cachedAt : Nat
  size : Nat
deriving DecidableEq

/-- `manifestTTL` of `NewDockerRegistryCache`: 1 hour, in seconds. -/
def manifestTTLSeconds : Nat := 3600

/-- `blobTTL` of `NewDockerRegistryCache`: 7 days, in seconds. -/
def blobTTLSeconds : Nat := 7 * 24 * 3600

/-- The expiry computed by `DockerRegistryCache.Set` (cache.go 102-133):
the ttl argument is overridden by the path type of the key. -/
def dockerRegistryCacheSetExpiry (key : String) (now ttlSeconds : Nat) : Nat :=
  if strContains key "/manifests/" then now + manifestTTLSeconds
  else if strContains key "/blobs/" then now + blobTTLSeconds
  else now + ttlSeconds

/-- `DockerRegistryCache.Set`: the `CacheItem` installed in the index
(asynchronous disk save and statistics elided). -/
def dockerRegistryCacheSet (now : Nat) (key : String) (data : List Nat)
    (headers : Header) (statusCode ttlSeconds : Nat) : CacheItem :=
  { data := data
  , headers := headers
  , statusCode := statusCode
  , expiresAt := dockerRegistryCacheSetExpiry key now ttlSeconds
  , cachedAt := now
  , size := data.length }

/-- `ProxyServer.serveCachedResponse`. -/
def serveCachedResponse (item : CacheItem) : ClientResp :=
  { status := item.statusCode
  , headers := headerSet item.headers "X-Cache" "HIT"
  , body := item.data }

/-! ### Cache keys and cacheability (main.go) -/

/-- `ProxyServer.generateCacheKey`. -/
def generateCacheKey (host path : String) : String :=
  host ++ path

/-- `ProxyServer.isCacheable`. -/
def isCacheable (path : String) : Bool :=
  strContains path "/manifests/" || strContains path "/blobs/sha256:"

/-- The cache-lookup key consulted by `handleV2Request` for a request:
`generateCacheKey(r.Host, r.URL.Path)` when caching is enabled and the
path is cacheable, otherwise no lookup. -/
def v2CacheLookupKey (r : InReq) (cacheEnabled : Bool) : Option String :=
  if cacheEnabled && isCacheable r.path then some (generateCacheKey r.host r.path) else none

/-- The cache-check phase of `handleV2Request`: serve the cached item if
one is found under the key, else fall through (to the upstream fetch). -/
def handleV2CacheCheck (cacheGet : String → Option CacheItem) (r : InReq)
    (cacheEnabled : Bool) : Option ClientResp :=
  match v2CacheLookupKey r cacheEnabled with
  | some k =>
    match cacheGet k with
    | some item => some (serveCachedResponse item)
    | none => none
  | none => none

/-! ### Redirect classification and server-side follow (main.go) -/

/-- The built-in blocked-host patterns of `NewProxyServer`. -/
def defaultBlockedHostPatterns : List String :=
  ["cloudflare.docker.com", "docker.com", "docker.io"]

/-- `ProxyServer.isBlockedHost`: substring match against the pattern list. -/
def isBlockedHost (patterns : List String) (host : String) : Bool :=
  patterns.any fun pat => strContains host pat

/-- The request built by `followRedirectWithSignedURL` (main.go 604-621):
a fresh `GET` on the signed URL whose only header is the fixed
`User-Agent`; the original request's headers (including `Authorization`)
are not consulted at all. -/
def buildSignedURLRequest (signedURL : String) : Req :=
  { method := "GET"
  , url := signedURL
  , headers := headerSet [] "User-Agent" "go-docker-proxy/1.0" }

/-- `ProxyServer.followRedirectWithSignedURL`: execute the fresh GET and
relay the outcome with the non-caching copy path.  The transport is a
parameter; no cache write is ever produced (the source comments that
signed-URL results are deliberately not cached). -/
def followRedirectWithSignedURL (transport : Req → Except String Resp)
    (signedURL : String) : ClientResp × Option CacheWrite :=
  match transport (buildSignedURLRequest signedURL) with
  | .error e => (writeErrorResponse ("signed URL request failed: " ++ e) 502, none)
  | .ok resp => (copyResponseRoundTrip resp, none)

/-- The tail of `proxyRequestWithRoundTrip` (main.go 580-588): decide
whether this response may be stored and copy it. -/
def proxyRespondCopy (reqHost path : String) (cacheEnabled enableCache : Bool)
    (resp : Resp) : ClientResp × Option CacheWrite :=
  let shouldCache := cacheEnabled && enableCache && isCacheable path
  if shouldCache then
    copyResponseWithCacheRoundTrip resp (generateCacheKey reqHost path) true
  else
    copyResponseWithCacheRoundTrip resp "" false

/-- The response-processing part of `proxyRequestWithRoundTrip`
(main.go 524-588), after the upstream `RoundTrip` returned `resp`:
401 turns into the proxy's challenge; a redirect status with a nonempty,
parseable `Location` is either followed server-side (blocked host) or
returned verbatim; everything else is copied with optional caching.
`parseURL` abstracts `url.Parse` composed with `.Host`. -/
def proxyRespond (parseURL : String → Option String) (patterns : List String)
    (transport : Req → Except String Resp) (scheme reqHost path : String)
    (cacheEnabled enableCache : Bool) (resp : Resp) : ClientResp × Option CacheWrite :=
  if resp.status = 401 then
    (responseUnauthorized scheme reqHost, none)
  else if resp.status = 301 ∨ resp.status = 302 ∨ resp.status = 303 ∨
          resp.status = 307 ∨ resp.status = 308 then
    if headerGet resp.headers "Location" ≠ "" then
      match parseURL (headerGet resp.headers "Location") with
      | some redirectHost =>
        if isBlockedHost patterns redirectHost then
          followRedirectWithSignedURL transport (headerGet resp.headers "Location")
        else
          (copyResponseRoundTrip resp, none)
      | none => proxyRespondCopy reqHost path cacheEnabled enableCache resp
    else proxyRespondCopy reqHost path cacheEnabled enableCache resp
  else proxyRespondCopy reqHost path cacheEnabled enableCache resp

/-! ### Docker Hub library redirect (main.go `processDockerHubLibraryRedirect`,
`handleV2Request`) -/

/-- `ProxyServer.processDockerHubLibraryRedirect` over character lists:
split the path on `/`; when there are exactly 5 parts and the second is
`v2`, splice in `library` after it; otherwise return the empty string. -/
def processDockerHubLibraryRedirect (path : List Char) : List Char :=
  let parts := goSplitC '/' path
  if parts.length = 5 ∧ parts.getD 1 [] = "v2".toList then
    goJoinC '/' (parts.take 2 ++ ["library".toList] ++ parts.drop 2)
  else []

/-- The library-redirect decision of `handleV2Request` (main.go 470-478):
on a Docker Hub upstream, a nonempty rewrite is answered with a
`301 Moved Permanently` to the rewritten path. -/
def dockerHubLibraryRedirect (isDockerHub : Bool) (path : List Char) :
    Option (Nat × List Char) :=
  if isDockerHub then
    let redirectURL := processDockerHubLibraryRedirect path
    if redirectURL = [] then none else some (301, redirectURL)
  else none

/-- The canonical `/v2/<name>/<kind>/<ref>` path as a character list. -/
def hubPath (name kind ref : List Char) : List Char :=
  "/v2/".toList ++ name ++ '/' :: kind ++ '/' :: ref

/-! ### `/v2/` probe with retry and the `/v2/auth` probe (main.go
`handleV2Root` 309-347, `handleAuth` 386-393) -/

/-- The retry loop of `handleV2Root`: attempt `i` sleeps `i*100` ms first
(nothing before attempt 0), then round-trips; stop on the first success or
after the fuel (initially `maxRetries = 3`) runs out.  Returns the sleeps
performed (in ms, in order) and the final outcome. -/
def roundTripRetryGo (rt : Nat → Except String Resp) :
    Nat → Nat → List Nat → List Nat × Except String Resp
  | _, 0, sleeps => (sleeps, .error "")
  | i, fuel + 1, sleeps =>
    let sleeps' := if 0 < i then sleeps ++ [i * 100] else sleeps
    match rt i with
    | .ok resp => (sleeps', .ok resp)
    | .error e =>
      match fuel with
      | 0 => (sleeps', .error e)
      | _ + 1 => roundTripRetryGo rt (i + 1) fuel sleeps'

/-- The probe of `handleV2Root`: three attempts. -/
def handleV2RootProbe (rt : Nat → Except String Resp) : List Nat × Except String Resp :=
  roundTripRetryGo rt 0 3 []

/-- `ProxyServer.handleV2Root` after routing: probe with retry; on final
failure answer 502; on success mirror 401 as the proxy challenge, else
copy the response through. -/
def handleV2Root (scheme hostname : String) (rt : Nat → Except String Resp) :
    List Nat × ClientResp :=
  let (sleeps, outcome) := handleV2RootProbe rt
  match outcome with
  | .error e =>
    (sleeps, writeErrorResponse ("upstream connection failed after 3 attempts: " ++ e) 502)
  | .ok resp =>
    (sleeps,
     if resp.status = 401 then responseUnauthorized scheme hostname
     else copyResponseRoundTrip resp)

/-- The probe step of `handleAuth` (main.go 386-393): a single
`RoundTrip` (attempt 0 only), answering a 500 error response on transport
failure — no retry, no 502. -/
def handleAuthProbe (rt : Nat → Except String Resp) : Except ClientResp Resp :=
  match rt 0 with
  | .error e => .error (writeErrorResponse e 500)
  | .ok resp => .ok resp

/-! ### FileBlobStore (cache_storage.go) -/

/-- The sidecar metadata (`blobMeta`). -/
structure BlobMetaL where
  digest : String
  size : Nat
  mediaType : String
  cachedAt : Nat
  expiresAt : Nat
  filePath : String
deriving DecidableEq

/-- The observable state of a `FileBlobStore`: data files and sidecar
files by path, and the in-memory index by digest.  Directories are not
modelled (`MkdirAll` only creates directories). -/
structure BlobStoreState where
  files : String → Option (List Nat)
  metas : String → Option BlobMetaL
  index : String → Option BlobMetaL

/-- `FileBlobStore.getPath`: strip the `sha256:` marker and shard by the
first four hex characters.  `hashKeyFn` abstracts the `hashKey` fallback
used when the remainder is shorter than 4 characters. -/
def fbsGetPath (hashKeyFn : String → String) (dir digest : String) : String :=
  let hash := goTrimPreS digest "sha256:"
  let hash := if hash.length < 4 then hashKeyFn digest else hash
  dir ++ "/" ++ hash.take 2 ++ "/" ++ ((hash.drop 2).take 2) ++ "/" ++ hash

/-- `FileBlobStore.Put` (cache_storage.go 114-193): create a temp file
(`tmpPath`, the fresh name `os.CreateTemp` returned), stream the content
into it while hashing, on digest mismatch delete the temp and fail,
otherwise rename into place, write the sidecar and update the index.
`hashFn` abstracts `"sha256:" + hex(sha256(content))`; buffering, the
cross-device copy fallback and i/o errors are not modelled. -/
def fileBlobStorePut (hashFn : List Nat → String) (hashKeyFn : String → String)
    (dir : String) (st : BlobStoreState) (digest : String) (content : List Nat)
    (tmpPath : String) (now ttl : Nat) : Except String Unit × BlobStoreState :=
  let path := fbsGetPath hashKeyFn dir digest
  let files1 : String → Option (List Nat) :=
    fun p => if p = tmpPath then some [] else st.files p
  let files2 : String → Option (List Nat) :=
    fun p => if p = tmpPath then some content else files1 p
  let actualHash := hashFn content
  if digest ≠ "" ∧ digest ≠ actualHash then
    (.error ("digest mismatch: expected " ++ digest ++ ", got " ++ actualHash),
     { st with files := fun p => if p = tmpPath then none else files2 p })
  else
    let files3 : String → Option (List Nat) :=
      fun p => if p = path then some content else if p = tmpPath then none else files2 p
    let meta : BlobMetaL :=
      { digest := digest
      , size := content.length
      , mediaType := ""
      , cachedAt := now
      , expiresAt := now + ttl
      , filePath := path }
    (.ok (),
     { files := files3
     , metas := fun p => if p = path ++ ".meta" then some meta else st.metas p
     , index := fun d => if d = digest then some meta else st.index d })

/-! ### InflightManager (cache_memory.go 94-165) -/

/-- The state guarded by the `InflightManager` mutex: the inflight table
(key to watcher count of the entry) and the two counters. -/
structure InflightState where
  inflight : String → Option Nat
  totalRequests : Nat
  deduplicated : Nat

/-- `InflightManager.TryStart`, the mutex-protected body: bump the total,
and either register as a watcher of an existing entry (`isFirst = false`,
deduplicated bumped) or install a fresh entry (`isFirst = true`). -/
def inflightTryStart (m : InflightState) (key : String) : Bool × InflightState :=
  let m1 := { m with totalRequests := m.totalRequests + 1 }
  match m1.inflight key with
  | some w =>
    (false,
     { m1 with
       inflight := fun k => if k = key then some (w + 1) else m1.inflight k
       deduplicated := m1.deduplicated + 1 })
  | none =>
    (true, { m1 with inflight := fun k => if k = key then some 0 else m1.inflight k })

/-- The `done` closure returned to the first caller: record the error,
fire the signal and drop the entry from the table. -/
def inflightDone (m : InflightState) (key : String) : InflightState :=
  { m with inflight := fun k => if k = key then none else m.inflight k }

/-- `n` consecutive `TryStart` calls on one key with no intervening
`done`, returning the `isFirst` results in order and the final state. -/
def tryStartN (m : InflightState) (key : String) : Nat → List Bool × InflightState
  | 0 => ([], m)
  | n + 1 =>
    let (b, m1) := inflightTryStart m key
    let (bs, m2) := tryStartN m1 key n
    (b :: bs, m2)

/-! ### Interleaving model of concurrent `handleV2Request` executions
(main.go 452-502, 505-588) on one cacheable GET cache key.

Each request is a process executing the handler's phases: check the cache
(a miss when cold), begin the upstream `RoundTrip`, receive the response
and schedule the cache write.  The handler contains no call into the
inflight manager, so the steps of distinct requests interleave freely
under a schedule. -/

inductive ReqPhase where
  | start
  | missObserved
  | fetching
  | finished
deriving DecidableEq

/-- Shared system state for `n` concurrent requests on one cache key:
the cache slot for the key, each request's phase and the fetch counters.
`startedBeforeFirstDone` counts the upstream round-trips that began while
none had completed yet. -/
structure ConcState (n : Nat) where
  cache : Option Nat
  phase : Fin n → ReqPhase
  fetchesStarted : Nat
  fetchesDone : Nat
  startedBeforeFirstDone : Nat

/-- One atomic step of request `i`, read off `handleV2Request`:
`start` performs the cache lookup (hit serves from cache, miss proceeds);
`missObserved` begins the upstream round-trip; `fetching` receives the
response and commits the asynchronous `cache.Set`. -/
def handlerStep (n : Nat) (i : Fin n) (s : ConcState n) : ConcState n :=
  match s.phase i with
  | .start =>
    match s.cache with
    | some _ => { s with phase := fun j => if j = i then .finished else s.phase j }
    | none => { s with phase := fun j => if j = i then .missObserved else s.phase j }
  | .missObserved =>
    { s with
      phase := fun j => if j = i then .fetching else s.phase j
      fetchesStarted := s.fetchesStarted + 1
      startedBeforeFirstDone :=
        if s.fetchesDone = 0 then s.startedBeforeFirstDone + 1
        else s.startedBeforeFirstDone }
  | .fetching =>
    { s with
      phase := fun j => if j = i then .finished else s.phase j
      fetchesDone := s.fetchesDone + 1
      cache := some 0 }
  | .finished => s

/-- Run the steps named by a schedule. -/
def runSchedule (n : Nat) (sched : List (Fin n)) (s : ConcState n) : ConcState n :=
  sched.foldl (fun st i => handlerStep n i st) s

/-- The cold initial state: empty cache, every request at its start. -/
def coldState (n : Nat) : ConcState n :=
  { cache := none
  , phase := fun _ => .start
  , fetchesStarted := 0
  , fetchesDone := 0
  , startedBeforeFirstDone := 0 }

/-! ### Concrete inputs used by witnesses and counterexamples -/

/-- An inflight table with no entries and zeroed counters. -/
def emptyInflight : InflightState :=
  { inflight := fun _ => none, totalRequests := 0, deduplicated := 0 }

/-- A signed-URL transport that always answers a small 200 blob. -/
def c5Resp : Resp :=
  { status := 200
  , headers := [("Content-Type", "application/octet-stream")]
  , body := some [5, 6, 7] }

/-- Transport used for the server-side follow scenario. -/
def c5Transport : Req → Except String Resp := fun _ => .ok c5Resp

/-- The upstream 307 that redirects to a blocked (cloudflare.docker.com) host. -/
def c5UpstreamResp : Resp :=
  { status := 307
  , headers := [("Location", "https://production.cloudflare.docker.com/registry-v2/blob?sig=abc")]
  , body := none }

/-- A concrete stand-in for `url.Parse(...).Host` defined on the 307 target. -/
def c5ParseURL : String → Option String := fun s =>
  if s = "https://production.cloudflare.docker.com/registry-v2/blob?sig=abc" then
    some "production.cloudflare.docker.com"
  else none

/-- A concrete blocked-host cache key path (64 `a` digest). -/
def c5Path : String :=
  "/v2/library/nginx/blobs/sha256:aaaaaaaaaaaaaaaaaaaaaaaaaaaaaaaaaaaaaaaaaaaaaaaaaaaaaaaaaaaaaaaa"

/-- Headers of an originating client request for the redirect-follow scenario. -/
def c7OrigHeaders : Header :=
  [ ("Accept", "application/vnd.docker.distribution.manifest.v2+json")
  , ("Range", "bytes=0-1023")
  , ("Authorization", "Bearer sometoken") ]

/-- A transport that fails on attempt 0 and succeeds from attempt 1 on. -/
def c9FlakyTransport : Nat → Except String Resp := fun i =>
  if i = 0 then .error "connection refused"
  else .ok { status := 200, headers := [], body := none }

/-- A transport whose every attempt fails. -/
def c9DeadTransport : Nat → Except String Resp :=
  fun _ => .error "dial tcp: i/o timeout"

/-- A 200 manifest response with no declared Content-Length. -/
def c3Resp : Resp :=
  { status := 200
  , headers := [("Content-Type", "application/vnd.docker.distribution.manifest.v2+json")]
  , body := some [1, 2, 3] }

/-- A manifest-by-tag cache key. -/
def tagManifestKey : String :=
  "docker.example.com/v2/library/nginx/manifests/latest"

/-- A manifest-by-digest cache key (64 `a` digest). -/
def digestManifestKey : String :=
  "docker.example.com/v2/library/nginx/manifests/sha256:aaaaaaaaaaaaaaaaaaaaaaaaaaaaaaaaaaaaaaaaaaaaaaaaaaaaaaaaaaaaaaaa"

/-- A stand-in hash function for blob-store inputs whose true digest is
`sha256:0000`. -/
def c4HashFn : List Nat → String := fun _ => "sha256:0000"

/-- A stand-in for the `hashKey` fallback of `FileBlobStore.getPath`. -/
def c4HashKeyFn : String → String := fun _ => "deadbeef"

/-- The empty blob store. -/
def emptyBlobStore : BlobStoreState :=
  { files := fun _ => none, metas := fun _ => none, index := fun _ => none }

/-- A 307 transport response for the non-blocked redirect scenario. -/
def c6Resp : Resp :=
  { status := 307
  , headers :=
      [ ("Location", "https://prod.s3.amazonaws.com/registry/blob?X-Amz-Signature=abc")
      , ("Content-Type", "text/plain") ]
  , body := none }

/-- Host extraction defined on the S3 target of `c6Resp`. -/
def c6ParseURL : String → Option String := fun s =>
  if s = "https://prod.s3.amazonaws.com/registry/blob?X-Amz-Signature=abc" then
    some "prod.s3.amazonaws.com"
  else none

/-- A transport that is never consulted in the non-blocked scenario. -/
def c6Transport : Req → Except String Resp := fun _ => .error "unused"

/-! ## Helper lemmas -/

/-- Filtering by a skip set preserves `Header.Get` for keys it keeps. -/
theorem headerGet_filter (h : Header) (k : String) (skip : String → Bool)
    (hk : skip k = false) :
    headerGet (h.filter fun kv => !skip kv.1) k = headerGet h k := by
  induction h with
  | nil => rfl
  | cons kv rest ih =>
    by_cases hkv : kv.1 = k
    · have hskv : skip kv.1 = false := by rw [hkv]; exact hk
      simp [List.filter_cons, hskv, headerGet, hkv, hk]
    · by_cases hs : skip kv.1
      · simp [List.filter_cons, hs, headerGet, hkv, ih]
      · simp only [Bool.not_eq_true] at hs
        simp [List.filter_cons, hs, headerGet, hkv, ih]

/-- For a non-200 response, `copyResponseWithCacheRoundTrip` copies the
status and the filtered headers and never produces a cache write. -/
theorem copyWithCache_of_ne200 (resp : Resp) (k : String) (s : Bool)
    (h200 : resp.status ≠ 200) :
    (copyResponseWithCacheRoundTrip resp k s).1.status = resp.status
  ∧ (copyResponseWithCacheRoundTrip resp k s).1.headers
      = resp.headers.filter (fun kv => !respSkipHeadersCache kv.1)
  ∧ (copyResponseWithCacheRoundTrip resp k s).2 = none := by
  unfold copyResponseWithCacheRoundTrip
  cases hb : resp.body with
  | none => simp
  | some bs => simp [h200]

/-- Both branches of `proxyRespondCopy` preserve the status and the
`Location` header of a non-200 response. -/
theorem proxyRespondCopy_of_ne200 (reqHost path : String) (ce ec : Bool)
    (resp : Resp) (h200 : resp.status ≠ 200) :
    (proxyRespondCopy reqHost path ce ec resp).1.status = resp.status
  ∧ headerGet (proxyRespondCopy reqHost path ce ec resp).1.headers "Location"
      = headerGet resp.headers "Location" := by
  have hkeep : respSkipHeadersCache "Location" = false := by decide
  unfold proxyRespondCopy
  by_cases hsc : (ce && ec && isCacheable path) = true
  · simp only [hsc, if_true]
    refine ⟨(copyWithCache_of_ne200 resp _ true h200).1, ?_⟩
    rw [(copyWithCache_of_ne200 resp _ true h200).2.1]
    exact headerGet_filter resp.headers "Location" respSkipHeadersCache hkeep
  · simp only [hsc, if_false, Bool.false_eq_true]
    refine ⟨(copyWithCache_of_ne200 resp _ false h200).1, ?_⟩
    rw [(copyWithCache_of_ne200 resp _ false h200).2.1]
    exact headerGet_filter resp.headers "Location" respSkipHeadersCache hkeep

/-! ## C10 -/

/-- C10: the cache key of a proxied `/v2/` request is exactly the `Host`
header concatenated with the URL path; the query string never enters the
key, so the cache-check phase of `handleV2Request` behaves identically
for two requests differing only in their query parameters. -/
theorem c10_cache_key_ignores_query (cacheGet : String → Option CacheItem)
    (host path q1 q2 : String) (cacheEnabled : Bool) :
    generateCacheKey host path = host ++ path
  ∧ v2CacheLookupKey ⟨host, path, q1⟩ cacheEnabled
      = (if cacheEnabled && isCacheable path then some (host ++ path) else none)
  ∧ handleV2CacheCheck cacheGet ⟨host, path, q1⟩ cacheEnabled
      = handleV2CacheCheck cacheGet ⟨host, path, q2⟩ cacheEnabled :=
  ⟨rfl, rfl, rfl⟩

/-! ## C7 -/

/-- C7 counterexample: the originating client request carries nonempty
`Accept` and `Range` headers (`c7OrigHeaders`), but the GET built by
`followRedirectWithSignedURL` for the server-side follow carries neither
— its `Accept` and `Range` differ from the originating request's values,
so the redirect request does not carry those headers forward as claimed. -/
theorem c7_counterexample :
    headerGet (buildSignedURLRequest
        "https://production.cloudflare.docker.com/registry-v2/blob?sig=abc").headers
        "Accept" = ""
  ∧ headerGet (buildSignedURLRequest
        "https://production.cloudflare.docker.com/registry-v2/blob?sig=abc").headers
        "Range" = ""
  ∧ headerGet c7OrigHeaders "Accept" ≠ ""
  ∧ headerGet c7OrigHeaders "Range" ≠ "" := by
  decide

/-- C7 (amended): the server-side follow issues a GET whose header set is
exactly the fixed `User-Agent: go-docker-proxy/1.0`; in particular it
carries no `Authorization`, no `Accept` and no `Range` header from the
originating request. -/
theorem c7_signed_url_request_headers (u : String) :
    (buildSignedURLRequest u).method = "GET"
  ∧ (buildSignedURLRequest u).headers = [("User-Agent", "go-docker-proxy/1.0")]
  ∧ headerGet (buildSignedURLRequest u).headers "Authorization" = ""
  ∧ headerGet (buildSignedURLRequest u).headers "Accept" = ""
  ∧ headerGet (buildSignedURLRequest u).headers "Range" = "" :=
  ⟨rfl, rfl, rfl, rfl, rfl⟩

/-! ## C5 -/

/-- C5 counterexample: on a cacheable blob path, a 307 to a blocked host
is followed server-side and the final upstream response is a 200, yet the
pipeline produces no cache write at all (the source deliberately does not
cache signed-URL results), and a subsequent identical request still
misses the (unchanged, cold) cache. -/
theorem c5_counterexample :
    (proxyRespond c5ParseURL defaultBlockedHostPatterns c5Transport
        "https" "docker.example.com" c5Path true true c5UpstreamResp).2 = none
  ∧ (proxyRespond c5ParseURL defaultBlockedHostPatterns c5Transport
        "https" "docker.example.com" c5Path true true c5UpstreamResp).1
      = copyResponseRoundTrip c5Resp
  ∧ handleV2CacheCheck (fun _ => none) ⟨"docker.example.com", c5Path, ""⟩ true = none := by
  refine ⟨?_, ?_, ?_⟩ <;> rfl

/-- C5 (amended): whenever the server-side follow's fresh GET succeeds,
`followRedirectWithSignedURL` relays the final response through the
non-caching copy path and performs no cache admission; nothing is stored
under the original request's cache key. -/
theorem c5_follow_never_caches (transport : Req → Except String Resp)
    (signedURL : String) (resp : Resp)
    (hok : transport (buildSignedURLRequest signedURL) = .ok resp) :
    followRedirectWithSignedURL transport signedURL = (copyResponseRoundTrip resp, none) := by
  unfold followRedirectWithSignedURL
  rw [hok]

/-- C5 witness: the follow of the concrete signed URL with the concrete
200 transport relays that response and caches nothing. -/
theorem c5_witness :
    followRedirectWithSignedURL c5Transport
        "https://production.cloudflare.docker.com/registry-v2/blob?sig=abc"
      = (copyResponseRoundTrip c5Resp, none) :=
  c5_follow_never_caches c5Transport
    "https://production.cloudflare.docker.com/registry-v2/blob?sig=abc" c5Resp rfl

/-! ## C2 -/

/-- C2 counterexample: a manifest entry whose reference is a `sha256:`
digest and one whose reference is a tag are written with the *same*
expiry, `now + 3600` seconds (the 1-hour manifest TTL) — the digest entry
does not receive a long TTL of the order of a year (31536000 s), so the
claimed digest/tag TTL distinction does not exist at write time. -/
theorem c2_counterexample :
    (dockerRegistryCacheSet 0 digestManifestKey [1] [] 200 3600).expiresAt
      = (dockerRegistryCacheSet 0 tagManifestKey [1] [] 200 3600).expiresAt
  ∧ (dockerRegistryCacheSet 0 digestManifestKey [1] [] 200 3600).expiresAt = 3600
  ∧ (3600 : Nat) ≠ 365 * 24 * 3600 := by
  refine ⟨?_, ?_, by decide⟩ <;> decide

/-- C2 (amended): the TTL chosen by `DockerRegistryCache.Set` depends
only on the path type of the cache key — keys containing `/manifests/`
expire after the 1-hour manifest TTL, other keys containing `/blobs/`
after the 7-day blob TTL, and all remaining keys after the caller's ttl
argument — and the proxied response path always passes a 1-hour ttl
argument to its deferred `cache.Set`.  The reference being a digest or a
tag plays no role. -/
theorem c2_ttl_by_path_type (now : Nat) (key : String) (data : List Nat)
    (headers : Header) (statusCode ttlSeconds : Nat) :
    (strContains key "/manifests/" = true →
      (dockerRegistryCacheSet now key data headers statusCode ttlSeconds).expiresAt
        = now + manifestTTLSeconds)
  ∧ (strContains key "/manifests/" = false → strContains key "/blobs/" = true →
      (dockerRegistryCacheSet now key data headers statusCode ttlSeconds).expiresAt
        = now + blobTTLSeconds)
  ∧ (strContains key "/manifests/" = false → strContains key "/blobs/" = false →
      (dockerRegistryCacheSet now key data headers statusCode ttlSeconds).expiresAt
        = now + ttlSeconds)
  ∧ (∀ (resp : Resp) (cacheKey : String) (shouldStore : Bool) (w : CacheWrite),
      (copyResponseWithCacheRoundTrip resp cacheKey shouldStore).2 = some w →
      w.ttlSeconds = 3600) := by
  refine ⟨?_, ?_, ?_, ?_⟩
  · intro hm
    simp [dockerRegistryCacheSet, dockerRegistryCacheSetExpiry, hm]
  · intro hm hb
    simp [dockerRegistryCacheSet, dockerRegistryCacheSetExpiry, hm, hb]
  · intro hm hb
    simp [dockerRegistryCacheSet, dockerRegistryCacheSetExpiry, hm, hb]
  · intro resp cacheKey shouldStore w hw
    unfold copyResponseWithCacheRoundTrip at hw
    cases hb : resp.body with
    | none => rw [hb] at hw; simp at hw
    | some bs =>
      rw [hb] at hw
      dsimp only at hw
      by_cases hss : shouldStore = false ∨ resp.status ≠ 200
      · rw [if_pos hss] at hw; simp at hw
      · rw [if_neg hss] at hw
        by_cases hemp : bs = []
        · rw [if_pos hemp] at hw; simp at hw
        · rw [if_neg hemp] at hw
          simp only [Option.some.injEq] at hw
          rw [← hw]

/-- C2 witness: the first conjunct applied to the digest-referenced
manifest key with the call-site 1-hour argument gives expiry 3600 s. -/
theorem c2_witness :
    (dockerRegistryCacheSet 0 digestManifestKey [1] [] 200 3600).expiresAt
      = 0 + manifestTTLSeconds :=
  (c2_ttl_by_path_type 0 digestManifestKey [1] [] 200 3600).1 (by decide)

/-! ## C3 -/

/-- C3 counterexample: a cacheable GET whose upstream 200 response
declares no `Content-Length` at all is *not* marked `X-Cache: BYPASS` —
the pipeline reads the full body, marks `X-Cache: MISS` and admits the
response to the in-memory cache. -/
theorem c3_counterexample :
    ¬ (headerGet (copyResponseWithCacheRoundTrip c3Resp tagManifestKey true).1.headers
          "X-Cache" = "BYPASS"
        ∧ (copyResponseWithCacheRoundTrip c3Resp tagManifestKey true).2 = none)
  ∧ headerGet (copyResponseWithCacheRoundTrip c3Resp tagManifestKey true).1.headers
        "X-Cache" = "MISS"
  ∧ (copyResponseWithCacheRoundTrip c3Resp tagManifestKey true).2.isSome = true := by
  refine ⟨?_, by decide, by decide⟩
  intro h
  exact absurd h.1 (by decide)

/-- C3 (amended): `copyResponseWithCacheRoundTrip` has no large-object
threshold and no BYPASS path: every storable 200 response with a
nonempty body is read fully into memory (the client body equals the whole
upstream body), marked `X-Cache: MISS`, and submitted to the cache under
the given key with a 1-hour ttl argument, regardless of any declared
`Content-Length`. -/
theorem c3_no_bypass_threshold (resp : Resp) (cacheKey : String) (bs : List Nat)
    (hst : resp.status = 200) (hb : resp.body = some bs) (hne : bs ≠ []) :
    headerGet (copyResponseWithCacheRoundTrip resp cacheKey true).1.headers
        "X-Cache" = "MISS"
  ∧ (copyResponseWithCacheRoundTrip resp cacheKey true).1.body = bs
  ∧ (copyResponseWithCacheRoundTrip resp cacheKey true).2
      = some { key := cacheKey
             , data := bs
             , headers := headerSet
                 (resp.headers.filter fun kv => !respSkipHeadersCache kv.1)
                 "Content-Length" (toString bs.length)
             , statusCode := resp.status
             , ttlSeconds := 3600 } := by
  have hcond : ¬ (true = false ∨ resp.status ≠ 200) := by
    rw [hst]; simp
  unfold copyResponseWithCacheRoundTrip
  rw [hb]
  dsimp only
  rw [if_neg hcond, if_neg hne]
  refine ⟨?_, rfl, rfl⟩
  have : ∀ (h : Header) (v : String), headerGet (headerSet h "X-Cache" v) "X-Cache" = v := by
    intro h v
    induction h with
    | nil => simp [headerSet, headerGet]
    | cons kv rest ih =>
      by_cases hkv : kv.1 = "X-Cache"
      · simpa [headerSet, List.filter_cons, hkv] using ih
      · simpa [headerSet, List.filter_cons, hkv, headerGet] using ih
  exact this _ "MISS"

/-- C3 witness: the concrete no-Content-Length 200 manifest response is
marked MISS, streamed whole, and admitted to the cache. -/
theorem c3_witness :
    headerGet (copyResponseWithCacheRoundTrip c3Resp tagManifestKey true).1.headers
        "X-Cache" = "MISS"
  ∧ (copyResponseWithCacheRoundTrip c3Resp tagManifestKey true).1.body = [1, 2, 3]
  ∧ (copyResponseWithCacheRoundTrip c3Resp tagManifestKey true).2
      = some { key := tagManifestKey
             , data := [1, 2, 3]
             , headers := headerSet
                 (c3Resp.headers.filter fun kv => !respSkipHeadersCache kv.1)
                 "Content-Length" (toString (3 : Nat))
             , statusCode := c3Resp.status
             , ttlSeconds := 3600 } :=
  c3_no_bypass_threshold c3Resp tagManifestKey [1, 2, 3] rfl rfl (by decide)

/-! ## C6 -/

/-- C6: for an upstream response with status in {301, 302, 303, 307, 308}
whose `Location` parses to a host matching no blocked-host pattern, the
response written to the client has the same status and carries the
`Location` value unchanged.  (When `Location` is empty the response falls
through the copy path, which also preserves both.) -/
theorem c6_nonblocked_redirect_verbatim
    (parseURL : String → Option String) (patterns : List String)
    (transport : Req → Except String Resp) (scheme reqHost path : String)
    (cacheEnabled enableCache : Bool) (resp : Resp) (redirectHost : String)
    (hst : resp.status = 301 ∨ resp.status = 302 ∨ resp.status = 303 ∨
           resp.status = 307 ∨ resp.status = 308)
    (hparse : parseURL (headerGet resp.headers "Location") = some redirectHost)
    (hnb : isBlockedHost patterns redirectHost = false) :
    (proxyRespond parseURL patterns transport scheme reqHost path
        cacheEnabled enableCache resp).1.status = resp.status
  ∧ headerGet (proxyRespond parseURL patterns transport scheme reqHost path
        cacheEnabled enableCache resp).1.headers "Location"
      = headerGet resp.headers "Location" := by
  have h401 : ¬ resp.status = 401 := by
    rcases hst with h | h | h | h | h <;> rw [h] <;> decide
  have h200 : resp.status ≠ 200 := by
    rcases hst with h | h | h | h | h <;> rw [h] <;> decide
  have hkeepRT : respSkipHeadersRT "Location" = false := by decide
  unfold proxyRespond
  rw [if_neg h401, if_pos hst]
  by_cases hloc : headerGet resp.headers "Location" ≠ ""
  · rw [if_pos hloc, hparse]
    dsimp only
    rw [if_neg (by rw [hnb]; decide : ¬ isBlockedHost patterns redirectHost = true)]
    exact ⟨rfl, headerGet_filter resp.headers "Location" respSkipHeadersRT hkeepRT⟩
  · rw [if_neg hloc]
    exact proxyRespondCopy_of_ne200 reqHost path cacheEnabled enableCache resp h200

/-- C6 witness: a concrete 307 whose `Location` is a signed S3 URL (host
`prod.s3.amazonaws.com`, matching no default blocked pattern) is returned
to the client as a 307 with the `Location` byte-for-byte intact. -/
theorem c6_witness :
    (proxyRespond c6ParseURL defaultBlockedHostPatterns c6Transport
        "https" "docker.example.com" c5Path true true c6Resp).1.status = c6Resp.status
  ∧ headerGet (proxyRespond c6ParseURL defaultBlockedHostPatterns c6Transport
        "https" "docker.example.com" c5Path true true c6Resp).1.headers "Location"
      = headerGet c6Resp.headers "Location" :=
  c6_nonblocked_redirect_verbatim c6ParseURL defaultBlockedHostPatterns c6Transport
    "https" "docker.example.com" c5Path true true c6Resp "prod.s3.amazonaws.com"
    (by decide) (by decide) (by decide)

/-! ## C8 -/

/-- `strings.Split` on a separator-free string yields that one part. -/
theorem goSplitC_no_sep (sep : Char) (a : List Char) (h : ∀ c ∈ a, c ≠ sep) :
    goSplitC sep a = [a] := by
  induction a with
  | nil => rfl
  | cons c cs ih =>
    have hc : c ≠ sep := h c (by simp)
    have ih' := ih fun x hx => h x (by simp [hx])
    simp [goSplitC, hc, ih']

/-- Splitting `a ++ sep :: b` with `a` separator-free peels off `a`. -/
theorem goSplitC_sep_append (sep : Char) (a b : List Char)
    (h : ∀ c ∈ a, c ≠ sep) :
    goSplitC sep (a ++ sep :: b) = a :: goSplitC sep b := by
  induction a with
  | nil => simp [goSplitC]
  | cons c cs ih =>
    have hc : c ≠ sep := h c (by simp)
    have ih' := ih fun x hx => h x (by simp [hx])
    simp [goSplitC, hc, ih']

/-- Splitting the canonical `/v2/<name>/<kind>/<ref>` path gives exactly
the five parts the source inspects. -/
theorem goSplitC_hubPath (name kind ref : List Char)
    (hn : ∀ c ∈ name, c ≠ '/') (hk : ∀ c ∈ kind, c ≠ '/')
    (hr : ∀ c ∈ ref, c ≠ '/') :
    goSplitC '/' (hubPath name kind ref)
      = [[], "v2".toList, name, kind, ref] := by
  have h0 : hubPath name kind ref
      = [] ++ '/' :: ("v2".toList ++ '/' :: (name ++ '/' :: (kind ++ '/' :: ref))) := by
    simp [hubPath]
  rw [h0]
  rw [goSplitC_sep_append '/' [] _ (by decide)]
  rw [goSplitC_sep_append '/' "v2".toList _ (by decide)]
  rw [goSplitC_sep_append '/' name _ hn]
  rw [goSplitC_sep_append '/' kind _ hk]
  rw [goSplitC_no_sep '/' ref hr]

/-- C8: on a Docker Hub upstream, a path of the form
`/v2/<name>/<kind>/<ref>` (exactly 3 slash-free segments after `/v2/`,
so 5 split parts) is answered with a `301` whose target is
`/v2/library/<name>/<kind>/<ref>`; any path whose slash-split does not
have exactly 5 parts (a different number of segments after `/v2/`)
produces no rewrite redirect. -/
theorem c8_library_redirect :
    (∀ name kind ref : List Char,
      (∀ c ∈ name, c ≠ '/') → (∀ c ∈ kind, c ≠ '/') → (∀ c ∈ ref, c ≠ '/') →
      dockerHubLibraryRedirect true (hubPath name kind ref)
        = some (301, "/v2/library/".toList ++ name ++ '/' :: kind ++ '/' :: ref))
  ∧ (∀ path : List Char, (goSplitC '/' path).length ≠ 5 →
      dockerHubLibraryRedirect true path = none) := by
  constructor
  · intro name kind ref hn hk hr
    unfold dockerHubLibraryRedirect processDockerHubLibraryRedirect
    rw [goSplitC_hubPath name kind ref hn hk hr]
    simp [goJoinC]
  · intro path hlen
    have hcond : ¬ ((goSplitC '/' path).length = 5
        ∧ (goSplitC '/' path).getD 1 [] = "v2".toList) := fun hh => hlen hh.1
    unfold dockerHubLibraryRedirect processDockerHubLibraryRedirect
    dsimp only
    rw [if_neg hcond]
    rfl

/-- C8 witness: `GET /v2/nginx/manifests/latest` on a Docker Hub host is
redirected `301` to `/v2/library/nginx/manifests/latest`, and a 2-segment
path such as `/v2/nginx/tags` is not rewritten. -/
theorem c8_witness :
    dockerHubLibraryRedirect true
        (hubPath "nginx".toList "manifests".toList "latest".toList)
      = some (301, "/v2/library/".toList ++ "nginx".toList
          ++ '/' :: "manifests".toList ++ '/' :: "latest".toList)
  ∧ dockerHubLibraryRedirect true "/v2/nginx/tags".toList = none :=
  ⟨c8_library_redirect.1 "nginx".toList "manifests".toList "latest".toList
      (by decide) (by decide) (by decide),
   c8_library_redirect.2 "/v2/nginx/tags".toList (by decide)⟩

/-! ## C9 -/

/-- C9 counterexample: a transport that fails on attempt 0 but would
succeed on any retry.  The `/v2/auth` handler's probe answers a 500 error
response after the single failed attempt — it neither retries (the same
transport makes `handleV2Root` succeed with a 200) nor responds 502, so
the claim's description of the `/v2/auth` handler is false. -/
theorem c9_counterexample :
    handleAuthProbe c9FlakyTransport
      = .error (writeErrorResponse "connection refused" 500)
  ∧ (handleV2Root "https" "docker.example.com" c9FlakyTransport).2.status = 200
  ∧ (500 : Nat) ≠ 502 := by
  refine ⟨rfl, rfl, by decide⟩

/-- C9 (amended): only the `GET /v2/` handler retries the probe — when
attempts 0, 1 and 2 all fail with transport errors it sleeps 100 ms and
200 ms between attempts (none before the first) and then answers 502 —
while the `GET /v2/auth` handler's probe performs a single attempt and
answers a 500 error response on transport failure. -/
theorem c9_v2root_retries_auth_does_not :
    (∀ (rt : Nat → Except String Resp) (scheme hostname : String) (e0 e1 e2 : String),
      rt 0 = .error e0 → rt 1 = .error e1 → rt 2 = .error e2 →
      handleV2Root scheme hostname rt
        = ([100, 200],
           writeErrorResponse ("upstream connection failed after 3 attempts: " ++ e2) 502))
  ∧ (∀ (rt : Nat → Except String Resp) (e : String), rt 0 = .error e →
      handleAuthProbe rt = .error (writeErrorResponse e 500)) := by
  constructor
  · intro rt scheme hostname e0 e1 e2 h0 h1 h2
    unfold handleV2Root handleV2RootProbe
    rw [show roundTripRetryGo rt 0 3 [] = ([100, 200], .error e2) from by
      unfold roundTripRetryGo
      rw [h0]
      dsimp only
      unfold roundTripRetryGo
      rw [h1]
      dsimp only
      unfold roundTripRetryGo
      rw [h2]
      norm_num]
  · intro rt e h
    unfold handleAuthProbe
    rw [h]

/-- C9 witness: with every attempt failing, `GET /v2/` sleeps 100 ms then
200 ms and answers 502, while the `/v2/auth` probe errors out at once
with a 500. -/
theorem c9_witness :
    handleV2Root "https" "docker.example.com" c9DeadTransport
      = ([100, 200],
         writeErrorResponse
           ("upstream connection failed after 3 attempts: " ++ "dial tcp: i/o timeout") 502)
  ∧ handleAuthProbe c9DeadTransport
      = .error (writeErrorResponse "dial tcp: i/o timeout" 500) :=
  ⟨c9_v2root_retries_auth_does_not.1 c9DeadTransport "https" "docker.example.com"
      "dial tcp: i/o timeout" "dial tcp: i/o timeout" "dial tcp: i/o timeout" rfl rfl rfl,
   c9_v2root_retries_auth_does_not.2 c9DeadTransport "dial tcp: i/o timeout" rfl⟩

/-! ## C4 -/

/-- C4: a blob-store `Put` whose nonempty claimed digest differs from the
hash of the input bytes fails with the digest-mismatch error, removes the
temporary file, and leaves the store exactly as it was: in particular,
when no data file or sidecar existed at the digest's final path before,
none exists afterwards. -/
theorem c4_put_mismatch_unchanged
    (hashFn : List Nat → String) (hashKeyFn : String → String) (dir : String)
    (st : BlobStoreState) (digest : String) (content : List Nat)
    (tmpPath : String) (now ttl : Nat)
    (hd : digest ≠ "") (hm : hashFn content ≠ digest)
    (hfresh : st.files tmpPath = none)
    (hpath : st.files (fbsGetPath hashKeyFn dir digest) = none)
    (hmeta : st.metas (fbsGetPath hashKeyFn dir digest ++ ".meta") = none) :
    (fileBlobStorePut hashFn hashKeyFn dir st digest content tmpPath now ttl).1
      = .error ("digest mismatch: expected " ++ digest ++ ", got " ++ hashFn content)
  ∧ (fileBlobStorePut hashFn hashKeyFn dir st digest content tmpPath now ttl).2 = st
  ∧ (fileBlobStorePut hashFn hashKeyFn dir st digest content tmpPath now ttl).2.files
      tmpPath = none
  ∧ (fileBlobStorePut hashFn hashKeyFn dir st digest content tmpPath now ttl).2.files
      (fbsGetPath hashKeyFn dir digest) = none
  ∧ (fileBlobStorePut hashFn hashKeyFn dir st digest content tmpPath now ttl).2.metas
      (fbsGetPath hashKeyFn dir digest ++ ".meta") = none := by
  have hcond : digest ≠ "" ∧ digest ≠ hashFn content := ⟨hd, fun h => hm h.symm⟩
  have hstate : (fileBlobStorePut hashFn hashKeyFn dir st digest content tmpPath now ttl).2
      = st := by
    unfold fileBlobStorePut
    dsimp only
    rw [if_pos hcond]
    cases st with
    | mk files metas index =>
      simp only [BlobStoreState.mk.injEq, and_true]
      funext p
      by_cases hp : p = tmpPath
      · subst hp
        simp only [if_pos rfl]
        exact hfresh.symm
      · simp [hp]
  refine ⟨?_, hstate, ?_, ?_, ?_⟩
  · unfold fileBlobStorePut
    dsimp only
    rw [if_pos hcond]
  · rw [hstate]; exact hfresh
  · rw [hstate]; exact hpath
  · rw [hstate]; exact hmeta

/-- C4 witness: on the empty store, putting one byte under the claimed
digest `sha256:1111` while the bytes hash to `sha256:0000` fails with the
mismatch error and leaves the store empty. -/
theorem c4_witness :
    (fileBlobStorePut c4HashFn c4HashKeyFn "cache/blobs" emptyBlobStore
        "sha256:1111" [7] "cache/blobs/11/11/blob-42" 0 31536000).1
      = .error ("digest mismatch: expected " ++ "sha256:1111" ++ ", got " ++ c4HashFn [7])
  ∧ (fileBlobStorePut c4HashFn c4HashKeyFn "cache/blobs" emptyBlobStore
        "sha256:1111" [7] "cache/blobs/11/11/blob-42" 0 31536000).2 = emptyBlobStore
  ∧ (fileBlobStorePut c4HashFn c4HashKeyFn "cache/blobs" emptyBlobStore
        "sha256:1111" [7] "cache/blobs/11/11/blob-42" 0 31536000).2.files
      "cache/blobs/11/11/blob-42" = none
  ∧ (fileBlobStorePut c4HashFn c4HashKeyFn "cache/blobs" emptyBlobStore
        "sha256:1111" [7] "cache/blobs/11/11/blob-42" 0 31536000).2.files
      (fbsGetPath c4HashKeyFn "cache/blobs" "sha256:1111") = none
  ∧ (fileBlobStorePut c4HashFn c4HashKeyFn "cache/blobs" emptyBlobStore
        "sha256:1111" [7] "cache/blobs/11/11/blob-42" 0 31536000).2.metas
      (fbsGetPath c4HashKeyFn "cache/blobs" "sha256:1111" ++ ".meta") = none :=
  c4_put_mismatch_unchanged c4HashFn c4HashKeyFn "cache/blobs" emptyBlobStore
    "sha256:1111" [7] "cache/blobs/11/11/blob-42" 0 31536000
    (by decide) (by decide) rfl rfl rfl

/-! ## C1 -/

/-- While an entry for the key is present, every further `TryStart` is a
follower: all results are `false`, the deduplicated counter grows by the
number of calls, and the entry stays present. -/
theorem tryStartN_followers (key : String) (n : Nat) :
    ∀ (m : InflightState) (w : Nat), m.inflight key = some w →
    (tryStartN m key n).1 = List.replicate n false
  ∧ (tryStartN m key n).2.deduplicated = m.deduplicated + n
  ∧ (tryStartN m key n).2.inflight key = some (w + n) := by
  induction n with
  | zero => intro m w hm; exact ⟨rfl, rfl, by simpa using hm⟩
  | succ k ih =>
    intro m w hm
    have hstep : inflightTryStart m key
        = (false,
           { inflight := fun j => if j = key then some (w + 1) else m.inflight j
           , totalRequests := m.totalRequests + 1
           , deduplicated := m.deduplicated + 1 }) := by
      unfold inflightTryStart
      dsimp only
      rw [hm]
    have hmid : ({ inflight := fun j => if j = key then some (w + 1) else m.inflight j
                 , totalRequests := m.totalRequests + 1
                 , deduplicated := m.deduplicated + 1 } : InflightState).inflight key
        = some (w + 1) := by simp
    obtain ⟨h1, h2, h3⟩ := ih _ (w + 1) hmid
    refine ⟨?_, ?_, ?_⟩
    · show (tryStartN m key (k + 1)).1 = List.replicate (k + 1) false
      unfold tryStartN
      rw [hstep]
      dsimp only
      rw [h1]
      rfl
    · show (tryStartN m key (k + 1)).2.deduplicated = m.deduplicated + (k + 1)
      unfold tryStartN
      rw [hstep]
      dsimp only
      rw [h2]
      dsimp only
      omega
    · show (tryStartN m key (k + 1)).2.inflight key = some (w + (k + 1))
      unfold tryStartN
      rw [hstep]
      dsimp only
      rw [h3]
      congr 1
      omega

/-- C1 counterexample: two concurrent cacheable GET requests on one cold
cache key, interleaved as lookup/lookup/fetch/fetch, both begin an
upstream round-trip before either completes — the handler contains no
coalescing, so the number of round-trips begun before the first completes
is 2, not at most 1. -/
theorem c1_counterexample :
    ¬ ((runSchedule 2 [0, 1, 0, 1] (coldState 2)).startedBeforeFirstDone ≤ 1) := by
  decide

/-- C1 (amended): the `InflightManager.TryStart` protocol itself grants
first-caller status to exactly one of any run of concurrent callers on a
key — starting from a state without an entry, `n + 1` consecutive
`TryStart` calls yield `true` once (for the first) and `false` for the
`n` followers, with the deduplicated counter growing by `n` — but the
proxy's request handler never invokes the inflight manager, so two
concurrent cold requests on one key both perform an upstream round-trip
(2 fetches begin before the first completes). -/
theorem c1_trystart_single_first (m : InflightState) (key : String)
    (hm : m.inflight key = none) (n : Nat) :
    (tryStartN m key (n + 1)).1 = true :: List.replicate n false
  ∧ (tryStartN m key (n + 1)).2.deduplicated = m.deduplicated + n
  ∧ (runSchedule 2 [0, 1, 0, 1] (coldState 2)).fetchesStarted = 2
  ∧ (runSchedule 2 [0, 1, 0, 1] (coldState 2)).startedBeforeFirstDone = 2 := by
  have hstep : inflightTryStart m key
      = (true,
         { inflight := fun j => if j = key then some 0 else m.inflight j
         , totalRequests := m.totalRequests + 1
         , deduplicated := m.deduplicated }) := by
    unfold inflightTryStart
    dsimp only
    rw [hm]
  have hmid : ({ inflight := fun j => if j = key then some 0 else m.inflight j
               , totalRequests := m.totalRequests + 1
               , deduplicated := m.deduplicated } : InflightState).inflight key
      = some 0 := by simp
  obtain ⟨h1, h2, _⟩ := tryStartN_followers key n _ 0 hmid
  refine ⟨?_, ?_, by decide, by decide⟩
  · show (tryStartN m key (n + 1)).1 = true :: List.replicate n false
    unfold tryStartN
    rw [hstep]
    dsimp only
    rw [h1]
  · show (tryStartN m key (n + 1)).2.deduplicated = m.deduplicated + n
    unfold tryStartN
    rw [hstep]
    dsimp only
    rw [h2]

/-- C1 witness: three concurrent `TryStart` callers on one key of the
empty table — the first is granted the fetch, the two followers are
deduplicated; and the unwired handler's two-request schedule starts two
fetches before the first completes. -/
theorem c1_witness :
    (tryStartN emptyInflight digestManifestKey 3).1 = true :: List.replicate 2 false
  ∧ (tryStartN emptyInflight digestManifestKey 3).2.deduplicated
      = emptyInflight.deduplicated + 2
  ∧ (runSchedule 2 [0, 1, 0, 1] (coldState 2)).fetchesStarted = 2
  ∧ (runSchedule 2 [0, 1, 0, 1] (coldState 2)).startedBeforeFirstDone = 2 :=
  c1_trystart_single_first emptyInflight digestManifestKey rfl 2

end GoDockerProxy
